import Mathlib

/-!
Verification development for the `students-viz` front end.

The JavaScript sources under `src/assets/js/` are shallowly embedded as
executable Lean definitions.  DOM state (panel contents, visibility flags,
body classes, cookies, the document title, the select controls) is made
explicit in an `AppState` record; jQuery/D3 side effects become pure state
transformations, and the calls a code path issues to the two views are
recorded in an ordered event list.
-/

/-- The dataset manifest (`data.json`), as consumed by
`Controller.getDataInformation`: title, author, source url, CSV file name and
the mapping from attribute names to their ordered value lists
(a JS object, embedded as an association list). -/
structure Manifest where
  title : String
  author : String
  url : String
  file : String
  attributes : List (String × List String)
deriving DecidableEq

/-- One `<select>` control built by the success path: its `name`, its
`<option>` values in document order, and the currently selected value
(a freshly rendered non-empty select has its first option selected;
an empty select has none). -/
structure SelectControl where
  name : String
  options : List String
  selected : Option String
deriving DecidableEq

/-- The recognized filter names, in the order the success path iterates them
(`let attributes = ["nationality", "sex", "semester"]`, controller.js:104). -/
def recognizedAttributeNames : List String :=
  ["nationality", "sex", "semester"]

/-- The control-building loop of the success path (controller.js:105-122):
for each recognized name, skip it when `data.attributes` has no such
property (`hasOwnProperty` guard), otherwise append one `<select>` holding
one `<option>` per attribute value, in manifest order. -/
def buildControls (m : Manifest) : List SelectControl :=
  recognizedAttributeNames.filterMap fun key =>
    (m.attributes.lookup key).map fun vals =>
      { name := key, options := vals, selected := vals.head? }

/-- The `Chart` class state (chart.js).  The jQuery/D3 element references
(`_svg`, `_gX`, `_gY`, `_g`, `_title`, `_subtitle`, `_line`, `_path`,
`_xAxis`, `_yAxis`) are embedded as `Option Nat`: `none` for `null`, and
`some id` for a created element, where `id` is allocated from a fresh-name
counter at creation time.  The numeric size/margin fields are constants and
do not influence any claim, so they are left out of the state. -/
structure Chart where
  data : String
  key_x : Option String
  key_y : Option String
  svg : Option Nat
  title : Option Nat
  subtitle : Option Nat
  line : Option Nat
  path : Option Nat
  g : Option Nat
  gX : Option Nat
  gY : Option Nat
  xAxis : Option Nat
  yAxis : Option Nat
deriving DecidableEq

/-- The `Chart` constructor: every element reference starts as `null`, the
keys start as `null`, and the bound data reference starts empty
(the constructor's `this._data = []`). -/
def Chart.new : Chart :=
  { data := ""
    key_x := none
    key_y := none
    svg := none
    title := none
    subtitle := none
    line := none
    path := none
    g := none
    gX := none
    gY := none
    xAxis := none
    yAxis := none }

/-- `Chart.data(d)` called with one argument (chart.js:636-641): stores the
value and returns `this`.  The zero-argument call of the same accessor is the
field projection `Chart.data`. -/
def Chart.data_set (c : Chart) (d : String) : Chart :=
  { c with data := d }

/-- `Chart.key_x(k)` called with one argument (chart.js:648-653): stores the
value (any JS value, possibly `undefined`, hence `Option String`) and
returns `this`. -/
def Chart.key_x_set (c : Chart) (k : Option String) : Chart :=
  { c with key_x := k }

/-- `Chart.key_y(k)` called with one argument (chart.js:660-665): stores the
value and returns `this`. -/
def Chart.key_y_set (c : Chart) (k : Option String) : Chart :=
  { c with key_y := k }

/-- `Chart.defineSettings()` (chart.js:435-447): creates the line generator
when `_line` is still unset, and appends the path element when `_path` is
still unset.  Creation allocates a fresh element id from the counter. -/
def Chart.defineSettings (c : Chart) (fresh : Nat) : Chart × Nat :=
  let s1 :=
    match c.line with
    | some e => (some e, fresh)
    | none => (some fresh, fresh + 1)
  let s2 :=
    match c.path with
    | some e => (some e, s1.2)
    | none => (some s1.2, s1.2 + 1)
  ({ c with line := s1.1, path := s2.1 }, s2.2)

/-- `Chart.init()` (chart.js:569-629): creates, each guarded by a `null`
check on the corresponding field, the svg surface, the x-axis group, the
y-axis group, the main graphics group, the title text and the subtitle text,
then calls `defineSettings()` and returns `this`.  Element creation is
embedded as allocation of a fresh id. -/
def Chart.init (c : Chart) (fresh : Nat) : Chart × Nat :=
  let s1 :=
    match c.svg with
    | some e => (some e, fresh)
    | none => (some fresh, fresh + 1)
  let s2 :=
    match c.gX with
    | some e => (some e, s1.2)
    | none => (some s1.2, s1.2 + 1)
  let s3 :=
    match c.gY with
    | some e => (some e, s2.2)
    | none => (some s2.2, s2.2 + 1)
  let s4 :=
    match c.g with
    | some e => (some e, s3.2)
    | none => (some s3.2, s3.2 + 1)
  let s5 :=
    match c.title with
    | some e => (some e, s4.2)
    | none => (some s4.2, s4.2 + 1)
  let s6 :=
    match c.subtitle with
    | some e => (some e, s5.2)
    | none => (some s5.2, s5.2 + 1)
  Chart.defineSettings
    { c with svg := s1.1, gX := s2.1, gY := s3.1, g := s4.1,
             title := s5.1, subtitle := s6.1 } s6.2

/-- Modelled from the spec: the `VisualizationMap` peer view
(src/assets/js/partials/map.js is not under src/).  Per spec section 4.3 it
exposes the same accessor contract as `Chart` over the capability set
data, key_x, key_y, render, so its selection state is embedded like the
chart's. -/
structure VisualizationMap where
  data : String
  key_x : Option String
  key_y : Option String
deriving DecidableEq

/-- Modelled from the spec: `VisualizationMap.data(d)` with one argument
stores the bound CSV reference and returns `this` (spec sections 4.3 and
8, same accessor pattern as the chart). -/
def VisualizationMap.data_set (m : VisualizationMap) (d : String) : VisualizationMap :=
  { m with data := d }

/-- Modelled from the spec: `VisualizationMap.key_x(k)` with one argument
stores the value and returns `this`. -/
def VisualizationMap.key_x_set (m : VisualizationMap) (k : Option String) : VisualizationMap :=
  { m with key_x := k }

/-- Modelled from the spec: `VisualizationMap.key_y(k)` with one argument
stores the value and returns `this`. -/
def VisualizationMap.key_y_set (m : VisualizationMap) (k : Option String) : VisualizationMap :=
  { m with key_y := k }

/-- The view calls a code path issues, in order.  `chartRender label` records
an invocation of `Chart.render(label)`; `mapRender` an invocation of the
map's own drawing; `mapDataBind` / `chartDataBind` the completion of the two
`data(file)` binds; `updateEnd` the return of `Controller.update()`;
`closeFullscreen` the closing of the loading overlay. -/
inductive AppEvent
  | mapDataBind
  | chartDataBind
  | mapRender
  | chartRender (label : Option String)
  | updateEnd
  | closeFullscreen
deriving DecidableEq

/-- Modelled from the spec: `VisualizationMap.render()` draws the choropleth
and re-renders the chart with the active category selection (spec sections
4.1, 4.3 and 8.6: the chart is re-rendered by the map/controller composite,
and `Chart.render` receives the active category label, the map's `key_y`). -/
def VisualizationMap.render (m : VisualizationMap) : List AppEvent :=
  [AppEvent.mapRender, AppEvent.chartRender m.key_y]

/-- The observable page and application state touched by `Controller`:
document title, data-info panel markup, the built filter controls, the
`<main>` region visibility, the loading-overlay state, the page-wrapper
visibility, the cookie jar (`document.cookie`, already split into entries),
the body element's class list, the CSV file reference and the two views. -/
structure AppState where
  docTitle : String
  dataInfo : String
  controls : List SelectControl
  mainVisible : Bool
  fullscreenClosed : Bool
  pageVisible : Bool
  cookies : List String
  bodyClasses : List String
  dataFile : String
  map : VisualizationMap
  chart : Chart
deriving DecidableEq

/-- `$('.controls__NAME :selected').val()`: the selected value of the named
select control, or `none` (JS `undefined`) when no such control exists or it
has no selected option. -/
def readVal (app : AppState) (name : String) : Option String :=
  (app.controls.find? fun c => c.name == name).bind fun c => c.selected

/-- JS template-literal coercion of a possibly-undefined value:
`${undefined}` renders as the string `undefined`. -/
def jsStr : Option String → String
  | none => "undefined"
  | some s => s

/-- `Controller.closeFullscreen()` (controller.js:219-224): hides the
fullscreen loading overlay (the fade animation collapses to a flag). -/
def Controller.closeFullscreen (app : AppState) : AppState :=
  { app with fullscreenClosed := true }

/-- `Controller.hidePage()` (controller.js:231-234). -/
def Controller.hidePage (app : AppState) : AppState :=
  { app with pageVisible := false }

/-- `Controller.showPage()` (controller.js:241-244). -/
def Controller.showPage (app : AppState) : AppState :=
  { app with pageVisible := true }

/-- `Controller.update()` (controller.js:198-212): reads the live control
values, composes `key_x` as the template literal of nationality, one space
and sex, reads `key_y` from the semester control, pushes both keys into the
map and the chart through their accessors, and renders the map.  Returns the
new state together with the ordered view calls issued. -/
def Controller.update (app : AppState) : AppState × List AppEvent :=
  let nationality := readVal app "nationality"
  let sex := readVal app "sex"
  let key_x := jsStr nationality ++ " " ++ jsStr sex
  let key_y := readVal app "semester"
  let app' :=
    { app with
      map := (app.map.key_x_set (some key_x)).key_y_set key_y
      chart := (app.chart.key_x_set (some key_x)).key_y_set key_y }
  (app', app'.map.render ++ [AppEvent.updateEnd])

/-- Substring containment on character lists, embedding JS
`c.indexOf(needle) >= 0`. -/
def charsContain (needle : List Char) : List Char → Bool
  | [] => needle.isEmpty
  | c :: cs => needle.isPrefixOf (c :: cs) || charsContain needle cs

/-- JS `hay.indexOf(needle) >= 0` on strings. -/
def jsContains (hay needle : String) : Bool :=
  charsContain needle.toList hay.toList

/-- The device-notice confirmation cookie name
(`Global.DEVICE_NOTICE_COOKIE`; the variables module is a configuration
constant file outside the excerpted core, its exact value does not matter to
any claim). -/
def deviceNoticeCookie : String := "device-notice"

/-- The body class marking a confirmed device notice
(`Global.DEVICE_NOTICE_CONFIRMED_CLASS`). -/
def deviceNoticeConfirmedClass : String := "device-notice-confirmed"

/-- jQuery `addClass`: appends the class to the body class list unless it is
already present. -/
def addBodyClass (app : AppState) (cls : String) : AppState :=
  if app.bodyClasses.contains cls then app
  else { app with bodyClasses := app.bodyClasses ++ [cls] }

/-- The cookie check of `Controller.initDeviceNotice` (controller.js:254-257):
split `document.cookie` into entries, drop empty ones, and test whether some
entry contains the substring `NAME=`. -/
def cookieFlagSet (cookies : List String) : Bool :=
  (cookies.filter fun c => c.length > 0).any fun c =>
    jsContains c (deviceNoticeCookie ++ "=")

/-- `Controller.initDeviceNotice()` (controller.js:251-260): when the cookie
check succeeds, add the confirmed class to the body element. -/
def Controller.initDeviceNotice (app : AppState) : AppState :=
  if cookieFlagSet app.cookies then
    addBodyClass app deviceNoticeConfirmedClass
  else app

/-- The key of a `k=v` cookie entry: the text before the first `=`. -/
def cookieKey (c : String) : String :=
  (c.splitOn "=").headD ""

/-- Browser semantics of assigning `document.cookie = "k=v"`: replace the
entry with the same key when one exists, otherwise append the new entry. -/
def setCookie (jar : List String) (k v : String) : List String :=
  if jar.any (fun c => cookieKey c == k) then
    jar.map fun c => if cookieKey c == k then k ++ "=" ++ v else c
  else jar ++ [k ++ "=" ++ v]

/-- `Controller.hideDeviceNotice()` (controller.js:267-274): set the
confirmation cookie to `true`, then add the confirmed class to the body
element. -/
def Controller.hideDeviceNotice (app : AppState) : AppState :=
  let app' := { app with cookies := setCookie app.cookies deviceNoticeCookie "true" }
  addBodyClass app' deviceNoticeConfirmedClass

/-- The data-info markup written by the success path
(controller.js:94-101). -/
def infoHtml (m : Manifest) : String :=
  "<h1>" ++ m.title ++ "</h1>\n<p>\n  Publisher: " ++ m.author
    ++ "<br />\n  <a href=\"" ++ m.url
    ++ "\" target=\"_blank\">Download source data</a>\n</p>"

/-- The fixed fallback instructional markup written by the failure path
(controller.js:151-177). -/
def errorHtml : String :=
  "<h1>Data is not available yet.</h1>\n<div class=\"error\">\n  <p>\n    <strong>Please follow these steps to get the latest data:</strong>\n  </p>\n  <p>\n    <ol>\n      <li>\n        Open a command line.\n      </li>\n      <li>\n        Change to the root directory of this project:<br />\n        <code>cd /path/to/student-growth</code>\n      </li>\n      <li>\n        Download the latest data set using Python:<br />\n        <code>python3 bin/download.py</code>\n      </li>\n      <li>\n        Click \"Refresh\" to start the visualization.\n      </li>\n    </ol>\n  </p>\n  <p>\n    <button onclick=\"window.location.reload()\">Refresh</button>\n  </p>\n</div>"

/-- The `.done` handler of the manifest fetch (controller.js:86-145) followed
by the `.always` handler (controller.js:186-190): store the data file, write
the data-info panel, build the filter controls (change listeners are wired to
`update()`), run the device-notice check, evaluate the three arguments of
`$.when` in order (map data bind, chart data bind, `update()`) whose
non-thenable results resolve immediately so the attached `.done` closes the
fullscreen overlay right away, append the manifest title to the document
title, and show the page. -/
def Controller.manifestDone (app : AppState) (m : Manifest) : AppState × List AppEvent :=
  let app1 :=
    { app with
      dataFile := m.file
      dataInfo := infoHtml m
      controls := buildControls m }
  let app2 := Controller.initDeviceNotice app1
  let app3 := { app2 with map := app2.map.data_set app2.dataFile }
  let app4 := { app3 with chart := app3.chart.data_set app3.dataFile }
  let upd := Controller.update app4
  let app5 := Controller.closeFullscreen upd.1
  let app6 := { app5 with docTitle := app5.docTitle ++ ": " ++ m.title }
  let app7 := Controller.showPage app6
  (app7, [AppEvent.mapDataBind, AppEvent.chartDataBind] ++ upd.2
      ++ [AppEvent.closeFullscreen])

/-- The `.fail` handler of the manifest fetch (controller.js:146-185) followed
by the `.always` handler: write the fallback instructions into the data-info
panel, hide the `<main>` region, close the fullscreen overlay, and show the
page.  No data is bound into either view and `update()` is not invoked, so
no view calls are issued. -/
def Controller.manifestFail (app : AppState) : AppState × List AppEvent :=
  let app1 := { app with dataInfo := errorHtml }
  let app2 := { app1 with mainVisible := false }
  let app3 := Controller.closeFullscreen app2
  let app4 := Controller.showPage app3
  (app4, [])

/-- A user change of the named select control: when the control exists and
offers the value, the selection is stored and the registered change listener
fires `Controller.update()`; otherwise nothing happens (no control, no
listener). -/
def selectValue (app : AppState) (name v : String) : AppState × List AppEvent :=
  match app.controls.find? (fun c => c.name == name) with
  | none => (app, [])
  | some c =>
    if c.options.contains v then
      Controller.update
        { app with
          controls := app.controls.map fun c' =>
            if c'.name == name then { c' with selected := some v } else c' }
    else (app, [])

/-- One parsed CSV record as produced by `d3.csv`: a JS object mapping each
header cell to the row's cell text.  Property access `d[k]` yields
`undefined` (`none`) for a missing column. -/
structure CsvRow where
  cells : List (String × String)
deriving DecidableEq

/-- JS property access `d[k]` on a parsed row. -/
def CsvRow.get (d : CsvRow) (k : String) : Option String :=
  d.cells.lookup k

/-- Accumulate a digit sequence into a number; any non-digit character makes
the whole parse fail. -/
def jsDigitsAux : List Char → Nat → Option Nat
  | [], acc => some acc
  | c :: cs, acc =>
    if 48 ≤ c.toNat ∧ c.toNat ≤ 57 then jsDigitsAux cs (acc * 10 + (c.toNat - 48))
    else none

/-- Integer reading of a non-empty string: an optional leading minus sign
followed by decimal digits; anything else fails. -/
def jsIntOfString (s : String) : Option Int :=
  match s.toList with
  | [] => none
  | c :: cs =>
    if c = Char.ofNat 45 then
      match cs with
      | [] => none
      | _ => (jsDigitsAux cs 0).map fun n => -(n : Int)
    else (jsDigitsAux (c :: cs) 0).map fun n => (n : Int)

/-- JS unary plus on a possibly-undefined cell, restricted to integer
literals: `+undefined` and non-numeric text give NaN, embedded as `none`;
the empty string coerces to `0`; an optionally signed digit string coerces
to its integer value.  (Fractional literals are outside this model; the
dataset's values are integral counts and no claim concerns them.) -/
def jsNum : Option String → Option Int
  | none => none
  | some s => if s = "" then some 0 else jsIntOfString s

/-- `d3.min(data, accessor)`: the least defined accessor value, scanning the
list and skipping undefined/NaN entries; `undefined` (`none`) when no entry
is defined. -/
def d3min (l : List (Option Int)) : Option Int :=
  l.foldl
    (fun m v =>
      match m, v with
      | none, none => none
      | none, some x => some x
      | some y, none => some y
      | some y, some x => some (min y x))
    none

/-- `d3.max(data, accessor)`, analogously. -/
def d3max (l : List (Option Int)) : Option Int :=
  l.foldl
    (fun m v =>
      match m, v with
      | none, none => none
      | none, some x => some x
      | some y, none => some y
      | some y, some x => some (max y x))
    none

/-- JS `s.replace(pat, rep)` with a string pattern: replaces the first
occurrence only. -/
def jsReplaceFirst (s pat rep : String) : String :=
  match s.splitOn pat with
  | [] => s
  | [x] => x
  | x :: rest => x ++ rep ++ String.intercalate pat rest

/-- What one invocation of `Chart.render(value)` computes from the parsed
CSV once the fetch resolves (chart.js:456-562): the title and subtitle
texts, the ordered point sequence `_d` (x from the anonymous first column
`d[""]`, y from the unary-plus coercion of the active `key_x` column),
the y-scale domain, the x-scale domain, and the dot data `tmp`
(raw id, raw `key_x` cell — the scales are applied to these at draw time —
and the active flag `d[""] === key_y`). -/
structure RenderOut where
  title : Option String
  subtitle : String
  points : List (Option String × Option Int)
  yDomain : Option Int × Option Int
  xDomain : List (Option String)
  dots : List (Option String × Option String × Bool)
deriving DecidableEq

/-- The body of `Chart.render(value)` (chart.js:456-562), for a chart whose
`_key_x` holds the string `key_x` and whose `_key_y` holds `key_y`
(`_key_x` must be a string there: the subtitle computation calls
`.replace` on it).  The two `data.forEach` passes that push rows with
`d.state === value` are embedded as left folds over the rows in CSV order;
the y-scale domain is computed over the whole `data` array. -/
def Chart.renderModel (data : List CsvRow) (value : Option String)
    (key_x : String) (key_y : Option String) : RenderOut :=
  let pts :=
    data.foldl
      (fun acc d =>
        if d.get "state" == value then acc ++ [(d.get "", jsNum (d.get key_x))]
        else acc)
      []
  let ys := data.map fun d => jsNum (d.get key_x)
  let dots :=
    data.foldl
      (fun acc d =>
        if d.get "state" == value then
          acc ++ [(d.get "", d.get key_x, d.get "" == key_y)]
        else acc)
      []
  { title := value
    subtitle := jsReplaceFirst key_x " " " | "
    points := pts
    yDomain := (d3min ys, d3max ys)
    xDomain := pts.map fun p => p.1
    dots := dots }

/-- The page state at the moment the manifest fetch resolves, following
main.js: document title from the host page, empty panels, no controls, a
chart that `init()` has set up, a fresh map, page hidden by the spinner
setup and the loading overlay open. -/
def pageStart : AppState :=
  { docTitle := "Studenten in Deutschland"
    dataInfo := ""
    controls := []
    mainVisible := true
    fullscreenClosed := false
    pageVisible := false
    cookies := []
    bodyClasses := []
    dataFile := ""
    map := { data := "", key_x := none, key_y := none }
    chart := (Chart.new.init 0).1 }

/-- User interactions relevant to the device notice after page load: a click
on the notice's confirm button, or any other interaction that leaves the
notice subsystem alone. -/
inductive NoticeEvent
  | confirm
  | idle
deriving DecidableEq

/-- One post-load interaction step: the confirm button's click listener runs
`Controller.hideDeviceNotice()`; anything else leaves the state unchanged. -/
def noticeStep (app : AppState) : NoticeEvent → AppState
  | NoticeEvent.confirm => Controller.hideDeviceNotice app
  | NoticeEvent.idle => app

/-- A complete device-notice run: page load with the given cookie jar (the
load sequence runs `Controller.initDeviceNotice()`), then the listed
interactions. -/
def runNotice (jar : List String) (es : List NoticeEvent) : AppState :=
  es.foldl noticeStep (Controller.initDeviceNotice { pageStart with cookies := jar })

/-- The semester value the first `update()` of the success path reads: the
selected (first) option of the freshly built semester control, when one was
built. -/
def initialSemester (m : Manifest) : Option String :=
  ((buildControls m).find? fun c => c.name == "semester").bind fun c => c.selected

/-- Concrete control panel for exercising `Controller.update()`: all three
controls present, with nationality `German`, sex `f` and semester `S2`
selected. -/
def appW1 : AppState :=
  { pageStart with
    controls :=
      [ { name := "nationality", options := ["German", "Foreign"], selected := some "German" }
      , { name := "sex", options := ["m", "f"], selected := some "f" }
      , { name := "semester", options := ["S1", "S2"], selected := some "S2" } ] }

/-- Concrete manifest for exercising the control builder: `nationality` is
absent, `sex` and `semester` are present. -/
def mW3 : Manifest :=
  { title := "Testdata"
    author := "Destatis"
    url := "https://example.org/source"
    file := "students.csv"
    attributes := [("sex", ["m", "f"]), ("semester", ["S1", "S2"])] }

/-- Concrete manifest for the document-title scenario. -/
def mC4 : Manifest :=
  { title := "Students in Germany"
    author := "Destatis"
    url := "https://example.org/data"
    file := "students.csv"
    attributes := [("nationality", ["German", "Foreign"]), ("sex", ["m", "f"]),
                   ("semester", ["WS 2017/18"])] }

/-- The page state after one successful manifest load of `mC4`. -/
def appC4once : AppState := (Controller.manifestDone pageStart mC4).1

/-- The page state after running the success path a second time on `mC4`. -/
def appC4twice : AppState := (Controller.manifestDone appC4once mC4).1

/-- The manifest of spec section 8.6: attributes hold only `sex` and
`semester`. -/
def m5 : Manifest :=
  { title := "Student data"
    author := "Destatis"
    url := "https://example.org/d"
    file := "data.csv"
    attributes := [("sex", ["m", "f"]), ("semester", ["S1", "S2"])] }

/-- The spec section 8.6 scenario run: successful load of `m5`, then the user
attempts to select nationality `German` (no such control was built, so this
is inert), selects sex `f` and selects semester `S2`.  The result pairs the
final state with the view calls of the last change event. -/
def app5run : AppState × List AppEvent :=
  let a1 := (Controller.manifestDone pageStart m5).1
  let a2 := (selectValue a1 "nationality" "German").1
  let a3 := (selectValue a2 "sex" "f").1
  selectValue a3 "semester" "S2"

/-- Concrete parsed CSV for exercising `Chart.renderModel`: the Berlin row
does not match the Bavaria category but still carries the extreme value 3 of
the `German m` column. -/
def csvRows10 : List CsvRow :=
  [ { cells := [("", "WS 2016/17"), ("state", "Bayern"), ("German m", "10")] }
  , { cells := [("", "WS 2017/18"), ("state", "Berlin"), ("German m", "3")] }
  , { cells := [("", "WS 2017/18"), ("state", "Bayern"), ("German m", "7")] } ]

theorem addBodyClass_controls (app : AppState) (cls : String) :
    (addBodyClass app cls).controls = app.controls := by
  unfold addBodyClass
  split <;> rfl

theorem initDeviceNotice_controls (app : AppState) :
    (Controller.initDeviceNotice app).controls = app.controls := by
  unfold Controller.initDeviceNotice
  split
  · exact addBodyClass_controls app deviceNoticeConfirmedClass
  · rfl

theorem initDeviceNotice_map (app : AppState) :
    (Controller.initDeviceNotice app).map = app.map := by
  unfold Controller.initDeviceNotice addBodyClass
  split
  · split <;> rfl
  · rfl

theorem initDeviceNotice_chart (app : AppState) :
    (Controller.initDeviceNotice app).chart = app.chart := by
  unfold Controller.initDeviceNotice addBodyClass
  split
  · split <;> rfl
  · rfl

theorem initDeviceNotice_dataFile (app : AppState) :
    (Controller.initDeviceNotice app).dataFile = app.dataFile := by
  unfold Controller.initDeviceNotice addBodyClass
  split
  · split <;> rfl
  · rfl

/-- The view-call trace of the manifest success path, in execution order:
the two data binds, then the calls of the first `update()` (map render,
chart render with the initially selected semester), then the overlay
close. -/
theorem manifestDone_events (app : AppState) (m : Manifest) :
    (Controller.manifestDone app m).2 =
      [AppEvent.mapDataBind, AppEvent.chartDataBind, AppEvent.mapRender,
       AppEvent.chartRender (initialSemester m), AppEvent.updateEnd,
       AppEvent.closeFullscreen] := by
  unfold Controller.manifestDone Controller.update
  simp [VisualizationMap.render, VisualizationMap.key_y_set, VisualizationMap.key_x_set,
        Chart.data_set, VisualizationMap.data_set, readVal, initialSemester,
        initDeviceNotice_controls]

/-- Claim C1: `Controller.update()` reads the current nationality value `n`,
sex value `s` and semester value `t`, composes `key_x` as `n`, one space and
`s` (and nothing else) and `key_y` as `t`, and stores them into both the map
and the chart through their `key_x`/`key_y` setters. -/
theorem update_composes_keys (app : AppState) (n s t : String)
    (hn : readVal app "nationality" = some n)
    (hs : readVal app "sex" = some s)
    (ht : readVal app "semester" = some t) :
    (Controller.update app).1.chart.key_x = some (n ++ " " ++ s)
  ∧ (Controller.update app).1.map.key_x = some (n ++ " " ++ s)
  ∧ (Controller.update app).1.chart.key_y = some t
  ∧ (Controller.update app).1.map.key_y = some t := by
  unfold Controller.update
  simp [hn, hs, ht, jsStr, Chart.key_x_set, Chart.key_y_set,
        VisualizationMap.key_x_set, VisualizationMap.key_y_set]

theorem update_composes_keys_witness :
    (Controller.update appW1).1.chart.key_x = some ("German" ++ " " ++ "f")
  ∧ (Controller.update appW1).1.map.key_x = some ("German" ++ " " ++ "f")
  ∧ (Controller.update appW1).1.chart.key_y = some "S2"
  ∧ (Controller.update appW1).1.map.key_y = some "S2" :=
  update_composes_keys appW1 "German" "f" "S2" (by decide) (by decide) (by decide)

/-- Claim C2: on manifest fetch failure the data-info panel holds exactly the
static fallback instructions, the main region is hidden and the loading
overlay is closed, while both views (including their bound data and keys)
are untouched and no view call is issued — in particular neither a data bind
nor `update()` runs on this path. -/
theorem manifest_failure_shows_fallback (app : AppState) :
    (Controller.manifestFail app).1.dataInfo = errorHtml
  ∧ (Controller.manifestFail app).1.mainVisible = false
  ∧ (Controller.manifestFail app).1.fullscreenClosed = true
  ∧ (Controller.manifestFail app).1.chart = app.chart
  ∧ (Controller.manifestFail app).1.map = app.map
  ∧ (Controller.manifestFail app).1.dataFile = app.dataFile
  ∧ (Controller.manifestFail app).1.controls = app.controls
  ∧ (Controller.manifestFail app).2 = [] :=
  ⟨rfl, rfl, rfl, rfl, rfl, rfl, rfl, rfl⟩

theorem manifest_failure_shows_fallback_witness :
    (Controller.manifestFail pageStart).1.dataInfo = errorHtml
  ∧ (Controller.manifestFail pageStart).1.mainVisible = false
  ∧ (Controller.manifestFail pageStart).1.fullscreenClosed = true
  ∧ (Controller.manifestFail pageStart).1.chart = pageStart.chart
  ∧ (Controller.manifestFail pageStart).1.map = pageStart.map
  ∧ (Controller.manifestFail pageStart).1.dataFile = pageStart.dataFile
  ∧ (Controller.manifestFail pageStart).1.controls = pageStart.controls
  ∧ (Controller.manifestFail pageStart).2 = [] :=
  manifest_failure_shows_fallback pageStart

/-- Claim C8: the `data`, `key_x` and `key_y` accessors follow the
arity-based get/set pattern: the zero-argument reads are the projections,
the one-argument writes store the value and hand back the (updated) chart so
configuration chains, and a subsequent read returns exactly the stored
value — including through a full chain touching all three fields. -/
theorem chart_accessor_roundtrip (c : Chart) (v : String) (kx ky : Option String) :
    (c.data_set v).data = v
  ∧ (c.key_x_set kx).key_x = kx
  ∧ (c.key_y_set ky).key_y = ky
  ∧ (((c.data_set v).key_x_set kx).key_y_set ky).data = v
  ∧ (((c.data_set v).key_x_set kx).key_y_set ky).key_x = kx
  ∧ (((c.data_set v).key_x_set kx).key_y_set ky).key_y = ky
  ∧ (c.data_set v).key_x = c.key_x
  ∧ (c.data_set v).key_y = c.key_y
  ∧ (c.key_x_set kx).data = c.data
  ∧ (c.key_y_set ky).data = c.data :=
  ⟨rfl, rfl, rfl, rfl, rfl, rfl, rfl, rfl, rfl, rfl⟩

theorem chart_accessor_roundtrip_witness :
    (Chart.new.data_set "students.csv").data = "students.csv"
  ∧ (Chart.new.key_x_set (some "German f")).key_x = some "German f"
  ∧ (Chart.new.key_y_set (some "S2")).key_y = some "S2"
  ∧ (((Chart.new.data_set "students.csv").key_x_set (some "German f")).key_y_set (some "S2")).data = "students.csv"
  ∧ (((Chart.new.data_set "students.csv").key_x_set (some "German f")).key_y_set (some "S2")).key_x = some "German f"
  ∧ (((Chart.new.data_set "students.csv").key_x_set (some "German f")).key_y_set (some "S2")).key_y = some "S2"
  ∧ (Chart.new.data_set "students.csv").key_x = Chart.new.key_x
  ∧ (Chart.new.data_set "students.csv").key_y = Chart.new.key_y
  ∧ (Chart.new.key_x_set (some "German f")).data = Chart.new.data
  ∧ (Chart.new.key_y_set (some "S2")).data = Chart.new.data :=
  chart_accessor_roundtrip Chart.new "students.csv" (some "German f") (some "S2")

theorem mem_buildControls (m : Manifest) (s : SelectControl) (hs : s ∈ buildControls m) :
    s.name ∈ recognizedAttributeNames ∧ m.attributes.lookup s.name = some s.options := by
  simp only [buildControls, List.mem_filterMap] at hs
  obtain ⟨a, ha, hfa⟩ := hs
  rcases h : m.attributes.lookup a with _ | vals <;> rw [h] at hfa
  · simp at hfa
  · simp only [Option.map_some', Option.some.injEq] at hfa
    subst hfa
    exact ⟨ha, h⟩

/-- Claim C3: the success path builds no selector for a recognized filter
name absent from the manifest's attribute mapping, and for a present name it
builds exactly one selector whose options are the manifest's value list in
manifest order. -/
theorem controls_built_per_manifest (m : Manifest) (key : String)
    (hk : key ∈ recognizedAttributeNames) :
    (m.attributes.lookup key = none → ∀ s ∈ buildControls m, s.name ≠ key)
  ∧ (∀ vals, m.attributes.lookup key = some vals →
      (buildControls m).filter (fun s => s.name == key)
        = [{ name := key, options := vals, selected := vals.head? }]) := by
  constructor
  · intro h s hs heq
    obtain ⟨-, hlook⟩ := mem_buildControls m s hs
    rw [heq, h] at hlook
    exact Option.noConfusion hlook
  · intro vals hv
    simp only [recognizedAttributeNames, List.mem_cons, List.not_mem_nil, or_false] at hk
    rcases hk with rfl | rfl | rfl
    · rcases h1 : m.attributes.lookup "sex" with _ | v1 <;>
        rcases h2 : m.attributes.lookup "semester" with _ | v2 <;>
          simp +decide [buildControls, recognizedAttributeNames, hv, h1, h2]
    · rcases h1 : m.attributes.lookup "nationality" with _ | v1 <;>
        rcases h2 : m.attributes.lookup "semester" with _ | v2 <;>
          simp +decide [buildControls, recognizedAttributeNames, hv, h1, h2]
    · rcases h1 : m.attributes.lookup "nationality" with _ | v1 <;>
        rcases h2 : m.attributes.lookup "sex" with _ | v2 <;>
          simp +decide [buildControls, recognizedAttributeNames, hv, h1, h2]

theorem controls_built_per_manifest_witness :
    (buildControls mW3).filter (fun s => s.name == "sex")
      = [{ name := "sex", options := ["m", "f"], selected := some "m" }] :=
  (controls_built_per_manifest mW3 "sex" (by decide)).2 ["m", "f"] (by decide)

/-- Claim C4 (code behavior at the claim's scenario): the first successful
load sets the document title to the original title, `": "` and the manifest
title; but running the success path a second time appends the suffix again
(controller.js:144 assigns `document.title + ": " + data.title` unguarded),
so the title after two runs differs from the title after one run — the
success path is not idempotent with respect to the document title. -/
theorem title_suffix_duplicated :
    appC4once.docTitle = "Studenten in Deutschland: Students in Germany"
  ∧ appC4twice.docTitle
      = "Studenten in Deutschland: Students in Germany: Students in Germany"
  ∧ ¬ appC4twice.docTitle = appC4once.docTitle := by
  refine ⟨rfl, rfl, by decide⟩

/-- Claim C5 (counterexample): in the spec section 8.6 scenario — manifest
attributes holding only sex and semester, user picking sex `f` and semester
`S2` (a nationality pick is impossible: no nationality control was built) —
the chart's `key_x` is `"undefined f"`, not `"German f"` as the claim
states: `$('.controls__nationality :selected').val()` is `undefined` and the
template literal renders it as the text `undefined`. -/
theorem scenario_key_x_counterexample :
    app5run.1.chart.key_x ≠ some "German f"
  ∧ app5run.1.chart.key_x = some "undefined f" := by
  refine ⟨by decide, rfl⟩

/-- Claim C5 (amended): in that scenario the update path does invoke
`Chart.render` with category label `"S2"`, the nationality control does not
exist, and the chart's `key_x` equals `"undefined f"`. -/
theorem scenario_renders_s2_with_undefined_nationality :
    AppEvent.chartRender (some "S2") ∈ app5run.2
  ∧ app5run.1.chart.key_x = some "undefined f"
  ∧ ((Controller.manifestDone pageStart m5).1.controls.find? fun c =>
      c.name == "nationality") = none := by
  refine ⟨by decide, rfl, by decide⟩

theorem chartRender_beq_close (x : Option String) :
    (AppEvent.chartRender x == AppEvent.closeFullscreen) = false := rfl

/-- Claim C9: in every successful-load run the overlay-close call is issued
exactly once, as the last of the six view calls of the success path — in
particular only after the map data bind, the chart data bind and the first
`update()` have completed.  (In the source the three `$.when` arguments are
evaluated, and hence completed, before the attached `.done` handler closes
the overlay; their results are not thenables, so the resolved `$.when`
promise fires the close synchronously right after them.) -/
theorem overlay_closed_after_initial_operations (app : AppState) (m : Manifest) :
    (Controller.manifestDone app m).2.get? 0 = some AppEvent.mapDataBind
  ∧ (Controller.manifestDone app m).2.get? 1 = some AppEvent.chartDataBind
  ∧ (Controller.manifestDone app m).2.get? 4 = some AppEvent.updateEnd
  ∧ (Controller.manifestDone app m).2.get? 5 = some AppEvent.closeFullscreen
  ∧ (Controller.manifestDone app m).2.length = 6
  ∧ (Controller.manifestDone app m).2.count AppEvent.closeFullscreen = 1 := by
  simp only [manifestDone_events]
  refine ⟨rfl, rfl, rfl, rfl, rfl, ?_⟩
  simp [List.count_cons, chartRender_beq_close]

theorem mem_addBodyClass_iff (app : AppState) (cls c : String) :
    c ∈ (addBodyClass app cls).bodyClasses ↔ c ∈ app.bodyClasses ∨ c = cls := by
  unfold addBodyClass
  split
  next h =>
    refine ⟨Or.inl, fun h' => ?_⟩
    rcases h' with h' | rfl
    · exact h'
    · simpa using h
  next h => simp

theorem mem_hideDeviceNotice_iff (app : AppState) (c : String) :
    c ∈ (Controller.hideDeviceNotice app).bodyClasses
      ↔ c ∈ app.bodyClasses ∨ c = deviceNoticeConfirmedClass := by
  unfold Controller.hideDeviceNotice
  exact mem_addBodyClass_iff _ _ _

theorem cookieFlagSet_of_entry (jar : List String)
    (h : ("device-notice=true" : String) ∈ jar) : cookieFlagSet jar = true := by
  unfold cookieFlagSet
  rw [List.any_eq_true]
  exact ⟨"device-notice=true", List.mem_filter.2 ⟨h, by decide⟩, by decide⟩

theorem entry_mem_setCookie (jar : List String) :
    ("device-notice=true" : String) ∈ setCookie jar deviceNoticeCookie "true" := by
  unfold setCookie
  split
  next h =>
    rw [List.any_eq_true] at h
    obtain ⟨c, hc, hk⟩ := h
    refine List.mem_map.2 ⟨c, hc, ?_⟩
    simp only [hk, if_true]
    decide
  next h =>
    exact List.mem_append.2 (Or.inr (by decide))

theorem hideDeviceNotice_cookies (app : AppState) :
    (Controller.hideDeviceNotice app).cookies
      = setCookie app.cookies deviceNoticeCookie "true" := by
  simp only [Controller.hideDeviceNotice, addBodyClass]
  split <;> rfl

theorem class_after_load (jar : List String) :
    deviceNoticeConfirmedClass ∈
        (Controller.initDeviceNotice { pageStart with cookies := jar }).bodyClasses
      ↔ cookieFlagSet jar = true := by
  unfold Controller.initDeviceNotice
  split
  next h =>
    simp only [mem_addBodyClass_iff]
    exact ⟨fun _ => h, fun _ => Or.inr trivial⟩
  next h =>
    simp only [pageStart]
    simpa using h

theorem runNotice_invariant (es : List NoticeEvent) :
    ∀ app : AppState,
      (deviceNoticeConfirmedClass ∈ (es.foldl noticeStep app).bodyClasses
        ↔ deviceNoticeConfirmedClass ∈ app.bodyClasses ∨ NoticeEvent.confirm ∈ es) := by
  induction es with
  | nil => intro app; simp
  | cons e t ih =>
    intro app
    cases e
    case confirm =>
      simp only [List.foldl_cons, noticeStep, ih, mem_hideDeviceNotice_iff]
      simp [or_comm, or_assoc]
    case idle =>
      simp only [List.foldl_cons, noticeStep, ih]
      simp

/-- Claim C6: over any post-load interaction sequence, the confirmed class is
on the body element exactly when the device-notice cookie check succeeded at
page load or the confirm action ran since load; and `hideDeviceNotice()`
itself both sets the cookie (so the flag check succeeds afterwards) and adds
the class. -/
theorem device_notice_class_iff (jar : List String) (es : List NoticeEvent)
    (app : AppState) :
    (deviceNoticeConfirmedClass ∈ (runNotice jar es).bodyClasses
      ↔ cookieFlagSet jar = true ∨ NoticeEvent.confirm ∈ es)
  ∧ cookieFlagSet (Controller.hideDeviceNotice app).cookies = true
  ∧ deviceNoticeConfirmedClass ∈ (Controller.hideDeviceNotice app).bodyClasses := by
  refine ⟨?_, ?_, ?_⟩
  · unfold runNotice
    rw [runNotice_invariant, class_after_load]
  · rw [hideDeviceNotice_cookies]
    exact cookieFlagSet_of_entry _ (entry_mem_setCookie app.cookies)
  · exact (mem_hideDeviceNotice_iff app _).2 (Or.inr rfl)

theorem device_notice_class_iff_witness :
    (deviceNoticeConfirmedClass ∈
        (runNotice ["device-notice=true"] [NoticeEvent.idle]).bodyClasses
      ↔ cookieFlagSet ["device-notice=true"] = true
          ∨ NoticeEvent.confirm ∈ [NoticeEvent.idle])
  ∧ cookieFlagSet (Controller.hideDeviceNotice pageStart).cookies = true
  ∧ deviceNoticeConfirmedClass ∈
      (Controller.hideDeviceNotice pageStart).bodyClasses :=
  device_notice_class_iff ["device-notice=true"] [NoticeEvent.idle] pageStart

/-- Claim C7: `Chart.init()` is idempotent — a second call on the result of a
first call (with the allocation counter where the first call left it)
changes nothing, because every creation is guarded by a null check on the
corresponding field; and on a fresh chart the first call does create the svg
surface, both axis groups, the graphics group, the title and the subtitle. -/
theorem chart_init_idempotent (c : Chart) (n : Nat) :
    Chart.init (Chart.init c n).1 (Chart.init c n).2 = Chart.init c n
  ∧ ((Chart.init Chart.new 0).1.svg.isSome = true
      ∧ (Chart.init Chart.new 0).1.gX.isSome = true
      ∧ (Chart.init Chart.new 0).1.gY.isSome = true
      ∧ (Chart.init Chart.new 0).1.g.isSome = true
      ∧ (Chart.init Chart.new 0).1.title.isSome = true
      ∧ (Chart.init Chart.new 0).1.subtitle.isSome = true
      ∧ (Chart.init Chart.new 0).1.line.isSome = true
      ∧ (Chart.init Chart.new 0).1.path.isSome = true
      ∧ Chart.new.svg = none) := by
  constructor
  · rcases c with ⟨d, kx, ky, sv, ti, su, li, pa, g, gX, gY, xA, yA⟩
    cases sv <;> cases ti <;> cases su <;> cases li <;> cases pa <;>
      cases g <;> cases gX <;> cases gY <;> rfl
  · decide

theorem chart_init_idempotent_witness :
    Chart.init (Chart.init Chart.new 0).1 (Chart.init Chart.new 0).2
      = Chart.init Chart.new 0 :=
  (chart_init_idempotent Chart.new 0).1

theorem foldl_push_eq_filter_map {α β : Type} (p : α → Bool) (f : α → β)
    (l : List α) :
    ∀ acc : List β,
      l.foldl (fun acc d => if p d then acc ++ [f d] else acc) acc
        = acc ++ (l.filter p).map f := by
  induction l with
  | nil => intro acc; simp
  | cons hd tl ih =>
    intro acc
    cases hp : p hd <;>
      simp [List.foldl_cons, hp, List.filter_cons, ih]

theorem d3min_aux (l : List (Option Int)) :
    ∀ x : Int,
      List.foldl
        (fun m v =>
          match m, v with
          | none, none => none
          | none, some x => some x
          | some y, none => some y
          | some y, some x => some (min y x))
        (some x) l
      = some (List.foldl min x (l.filterMap id)) := by
  induction l with
  | nil => intro x; rfl
  | cons hd tl ih =>
    intro x
    cases hd <;> simp [List.filterMap_cons, ih]

theorem d3min_eq_min? (l : List (Option Int)) : d3min l = (l.filterMap id).min? := by
  induction l with
  | nil => rfl
  | cons hd tl ih =>
    cases hd
    · simpa [d3min, List.filterMap_cons] using ih
    · simp [d3min, List.filterMap_cons, d3min_aux, List.min?]

theorem d3max_aux (l : List (Option Int)) :
    ∀ x : Int,
      List.foldl
        (fun m v =>
          match m, v with
          | none, none => none
          | none, some x => some x
          | some y, none => some y
          | some y, some x => some (max y x))
        (some x) l
      = some (List.foldl max x (l.filterMap id)) := by
  induction l with
  | nil => intro x; rfl
  | cons hd tl ih =>
    intro x
    cases hd <;> simp [List.filterMap_cons, ih]

theorem d3max_eq_max? (l : List (Option Int)) : d3max l = (l.filterMap id).max? := by
  induction l with
  | nil => rfl
  | cons hd tl ih =>
    cases hd
    · simpa [d3max, List.filterMap_cons] using ih
    · simp [d3max, List.filterMap_cons, d3max_aux, List.max?]

/-- Claim C10: in `Chart.render(value)` the plotted point sequence (`_d` and
the dot pass `tmp`) and the x-scale domain are built only from the rows
whose `state` column equals the category label, in CSV order, with row ids
taken from the column whose header is the empty string — while the linear
y-scale domain is the min and max of the coerced `key_x` column over ALL
parsed rows, so it does not depend on the category label at all. -/
theorem chart_render_row_selection (data : List CsvRow) (value : Option String)
    (kx : String) (ky : Option String) :
    (Chart.renderModel data value kx ky).points
      = (data.filter fun d => d.get "state" == value).map
          (fun d => (d.get "", jsNum (d.get kx)))
  ∧ (Chart.renderModel data value kx ky).dots
      = (data.filter fun d => d.get "state" == value).map
          (fun d => (d.get "", d.get kx, d.get "" == ky))
  ∧ (Chart.renderModel data value kx ky).xDomain
      = (data.filter fun d => d.get "state" == value).map (fun d => d.get "")
  ∧ (Chart.renderModel data value kx ky).yDomain.1
      = (data.filterMap fun d => jsNum (d.get kx)).min?
  ∧ (Chart.renderModel data value kx ky).yDomain.2
      = (data.filterMap fun d => jsNum (d.get kx)).max?
  ∧ (∀ v' : Option String,
      (Chart.renderModel data v' kx ky).yDomain
        = (Chart.renderModel data value kx ky).yDomain) := by
  refine ⟨?_, ?_, ?_, ?_, ?_, fun v' => rfl⟩
  · simpa [Chart.renderModel] using
      foldl_push_eq_filter_map (fun d => d.get "state" == value)
        (fun d => (d.get "", jsNum (d.get kx))) data []
  · simpa [Chart.renderModel] using
      foldl_push_eq_filter_map (fun d => d.get "state" == value)
        (fun d => (d.get "", d.get kx, d.get "" == ky)) data []
  · have h :=
      foldl_push_eq_filter_map (fun d => d.get "state" == value)
        (fun d => (d.get "", jsNum (d.get kx))) data []
    simp only [List.nil_append] at h
    simp only [Chart.renderModel]
    rw [h, List.map_map]
    rfl
  · simp [Chart.renderModel, d3min_eq_min?, List.filterMap_map, Function.comp]
  · simp [Chart.renderModel, d3max_eq_max?, List.filterMap_map, Function.comp]

theorem chart_render_row_selection_witness :
    (Chart.renderModel csvRows10 (some "Bayern") "German m" (some "WS 2017/18")).yDomain
        = (some 3, some 10)
  ∧ (Chart.renderModel csvRows10 (some "Bayern") "German m" (some "WS 2017/18")).points
      = (csvRows10.filter fun d => d.get "state" == some "Bayern").map
          (fun d => (d.get "", jsNum (d.get "German m"))) :=
  ⟨by decide,
   (chart_render_row_selection csvRows10 (some "Bayern") "German m"
      (some "WS 2017/18")).1⟩

theorem overlay_closed_after_initial_operations_witness :
    (Controller.manifestDone pageStart ⟨"T", "A", "U", "F", []⟩).2.get? 0
        = some AppEvent.mapDataBind
  ∧ (Controller.manifestDone pageStart ⟨"T", "A", "U", "F", []⟩).2.get? 1
      = some AppEvent.chartDataBind
  ∧ (Controller.manifestDone pageStart ⟨"T", "A", "U", "F", []⟩).2.get? 4
      = some AppEvent.updateEnd
  ∧ (Controller.manifestDone pageStart ⟨"T", "A", "U", "F", []⟩).2.get? 5
      = some AppEvent.closeFullscreen
  ∧ (Controller.manifestDone pageStart ⟨"T", "A", "U", "F", []⟩).2.length = 6
  ∧ (Controller.manifestDone pageStart ⟨"T", "A", "U", "F", []⟩).2.count
      AppEvent.closeFullscreen = 1 :=
  overlay_closed_after_initial_operations pageStart ⟨"T", "A", "U", "F", []⟩
